import Mathlib

/-!
Shallow embedding of the wrath-rs game backend (auth server and world server)
together with proofs about the spec claims.

Conventions used throughout:
* Rust `HashMap` values are modelled as association lists without duplicate
  keys (`alLookup` / `alInsert` / `alRemove`).
* Rust `f32` world coordinates are modelled as exact integers; all claim
  inputs are integral so this is faithful for them.
* External collaborators (SRP6 primitives, hex decoding, the database) are
  out of scope per the spec; their results are passed into the embedded
  handlers as explicit parameters.
* A Rust `panic!` / `unwrap()` on `None` is modelled by a dedicated `panic`
  outcome, distinct from an `anyhow::Result` error which is modelled by an
  `err` outcome.
-/

namespace WrathRs

/-- Association-list lookup, modelling `HashMap::get`. -/
def alLookup {α β : Type} [DecidableEq α] : List (α × β) → α → Option β
  | [], _ => none
  | (k, v) :: rest, key => if k = key then some v else alLookup rest key

/-- Association-list insert/replace, modelling `HashMap::insert` (ignoring
the returned previous value). -/
def alInsert {α β : Type} [DecidableEq α] : List (α × β) → α → β → List (α × β)
  | [], key, val => [(key, val)]
  | (k, v) :: rest, key, val =>
      if k = key then (key, val) :: rest else (k, v) :: alInsert rest key val

/-- Association-list removal, modelling `HashMap::remove` (keys are unique). -/
def alRemove {α β : Type} [DecidableEq α] : List (α × β) → α → List (α × β)
  | [], _ => []
  | (k, v) :: rest, key => if k = key then rest else (k, v) :: alRemove rest key

@[simp] theorem alLookup_nil {α β : Type} [DecidableEq α] (k : α) :
    alLookup ([] : List (α × β)) k = none := rfl

@[simp] theorem alLookup_cons {α β : Type} [DecidableEq α] (k key : α) (v : β) (rest : List (α × β)) :
    alLookup ((k, v) :: rest) key = if k = key then some v else alLookup rest key := rfl

/-! ## Auth server data model (src/auth_server) -/

/-- A socket address; identity is all we need. -/
abbrev Addr := Nat

/-- `wrath_auth_db` account row (the fields the auth handlers read). -/
structure Account where
  id : Nat
  username : String
  v : String
  s : String
  sessionkey : String
  banned : Nat
  deriving Repr, DecidableEq

/-- `auth_server/src/state.rs` `ClientState`.  The SRP proof carried by
`ChallengeProof` is an external SRP6 value; we keep only the username. -/
inductive ClientState where
  | connected
  | challengeProof (username : String)
  | reconnectProof (username : String)
  | logOnProof
  deriving Repr, DecidableEq

/-- `client_manager.rs` `Authentication`: SRP context plus username kept for
reconnects.  The `SrpServer` itself is external; we keep an identity token
`srpId` and its `reconnect_challenge_data` so that moving the context
between sessions is observable. -/
structure Authentication where
  username : String
  srpId : Nat
  reconnectChallengeData : Nat
  deriving Repr, DecidableEq

/-- `client_manager.rs` `Client` (per-connection state; the `Connection`
mailbox and `created_at` are owned by the IO layer and not needed here). -/
structure AuthClient where
  state : Option ClientState
  authentication : Option Authentication
  deriving Repr, DecidableEq

/-- `ClientManager` state: `connected_clients` and `authenticated_addresses`. -/
structure ClientManagerState where
  connectedClients : List (Addr × AuthClient)
  authenticatedAddresses : List (String × Addr)
  deriving Repr, DecidableEq

/-- Reply payload of `CMD_AUTH_LOGON_CHALLENGE_Server` (success fields are
produced by the external SRP library and elided). -/
inductive LogonChallengeResult where
  | success
  | failBanned
  | failUnknownAccount
  deriving Repr, DecidableEq

/-- Reply payload of `CMD_AUTH_LOGON_PROOF_Server`. -/
inductive LogonProofResult where
  | success
  | failIncorrectPassword
  | failUnknownAccount
  deriving Repr, DecidableEq

/-- Reply payload of `CMD_AUTH_RECONNECT_CHALLENGE_Server`. -/
inductive ReconnectChallengeResult where
  | success (challengeData : Nat)
  | failUnknown0
  deriving Repr, DecidableEq

/-- Reply payload of `CMD_AUTH_RECONNECT_PROOF_Server`. -/
inductive ReconnectProofResult where
  | success
  | failIncorrectPassword
  deriving Repr, DecidableEq

/-- `client_manager.rs` `ServerEvent`: messages pushed onto a connection's
outbound mailbox. -/
inductive AuthServerEvent where
  | authLogonChallenge (result : LogonChallengeResult)
  | authLogonProof (result : LogonProofResult)
  | authReconnectChallenge (result : ReconnectChallengeResult)
  | authReconnectProof (result : ReconnectProofResult)
  | realmList
  | disconnect
  deriving Repr, DecidableEq

/-- Outcome of running an auth handler: `ok`/`err` mirror `Result` from the
handler (carrying the manager state and the mailbox sends in order), while
`panic` models a Rust `unwrap()` on an absent value (sends made before the
panic are retained, since `flume` sends complete eagerly). -/
inductive AuthOutcome where
  | ok (st : ClientManagerState) (sends : List (Addr × AuthServerEvent))
  | err (st : ClientManagerState) (sends : List (Addr × AuthServerEvent))
  | panic (sends : List (Addr × AuthServerEvent))
  deriving Repr, DecidableEq

/-- Replace the state of the client at `addr` (no-op when absent). -/
def setClientStateAt (st : ClientManagerState) (addr : Addr) (s : Option ClientState) :
    ClientManagerState :=
  match alLookup st.connectedClients addr with
  | none => st
  | some c => { st with connectedClients := alInsert st.connectedClients addr { c with state := s } }

/-- Replace the whole client record at `addr`. -/
def setClientAt (st : ClientManagerState) (addr : Addr) (c : AuthClient) : ClientManagerState :=
  { st with connectedClients := alInsert st.connectedClients addr c }

/-- `ClientManager::handle_auth_logon_challenge`.

The database lookup result is the parameter `account`; the external
normalized-string and hex decoding steps on the success path are collapsed
into `decodeOk` (their failure propagates as an error before any send). -/
def handleAuthLogonChallenge (st : ClientManagerState) (addr : Addr)
    (account : Option Account) (decodeOk : Bool) : AuthOutcome :=
  match alLookup st.connectedClients addr with
  | none => .panic []
  | some _ =>
    match account with
    | some acc =>
      if acc.banned ≠ 0 then
        .ok (setClientStateAt st addr (some .connected))
          [(addr, .authLogonChallenge .failBanned)]
      else if acc.v = "" ∨ acc.s = "" then
        .ok (setClientStateAt st addr (some .connected))
          [(addr, .authLogonChallenge .failUnknownAccount)]
      else if decodeOk then
        .ok (setClientStateAt st addr (some (.challengeProof acc.username)))
          [(addr, .authLogonChallenge .success)]
      else
        .err st []
    | none =>
      .ok (setClientStateAt st addr (some .connected))
        [(addr, .authLogonChallenge .failUnknownAccount)]

/-- `ClientManager::handle_auth_logon_proof`.

External results are parameters: `keyParseOk` is whether
`PublicKey::from_le_bytes` succeeded, `srpOk` whether
`srp_proof.into_server` succeeded, and `srpToken`/`reconnectData` identify
the fresh `SrpServer` produced on success.  The database write
`set_account_sessionkey` is out of scope (assumed to succeed). -/
def handleAuthLogonProof (st : ClientManagerState) (addr : Addr)
    (keyParseOk srpOk : Bool) (srpToken reconnectData : Nat) : AuthOutcome :=
  if ¬keyParseOk then
    -- reject_logon_proof looks the client up with `.unwrap()`
    match alLookup st.connectedClients addr with
    | none => .panic []
    | some _ => .err st [(addr, .authLogonProof .failIncorrectPassword)]
  else
    match alLookup st.connectedClients addr with
    | none => .panic []
    | some client =>
      -- `client.state.take()` leaves the state as `None` on every path
      let stTaken := setClientAt st addr { client with state := none }
      match client.state with
      | some (.challengeProof username) =>
        if ¬srpOk then
          .err stTaken [(addr, .authLogonProof .failIncorrectPassword)]
        else
          -- send success, then `client.authenticate(srp_server, username)`
          let authedClient : AuthClient :=
            { state := some .logOnProof,
              authentication := some ⟨username, srpToken, reconnectData⟩ }
          let st1 := setClientAt stTaken addr authedClient
          -- `authenticated_addresses.insert(username, addr)`; a displaced
          -- previous entry gets its client removed and sent a Disconnect
          match alLookup st1.authenticatedAddresses username with
          | some otherAddr =>
            let st2 :=
              { st1 with authenticatedAddresses := alInsert st1.authenticatedAddresses username addr }
            match alLookup st2.connectedClients otherAddr with
            | some _ =>
              .ok { st2 with connectedClients := alRemove st2.connectedClients otherAddr }
                [(addr, .authLogonProof .success), (otherAddr, .disconnect)]
            | none => .ok st2 [(addr, .authLogonProof .success)]
          | none =>
            .ok { st1 with authenticatedAddresses := alInsert st1.authenticatedAddresses username addr }
              [(addr, .authLogonProof .success)]
      | _ =>
        .err stTaken [(addr, .authLogonProof .failUnknownAccount)]

/-- `ClientManager::handle_reconnect_challenge`.  Note that the source does
NOT return after sending `FailUnknown0` for an unknown username: it falls
through and calls `.unwrap()` on the absent `authenticated_address`, which
panics. -/
def handleReconnectChallenge (st : ClientManagerState) (addr : Addr)
    (accountName : String) : AuthOutcome :=
  match alLookup st.authenticatedAddresses accountName with
  | none =>
    -- failure reply is sent to the reconnecting client ...
    match alLookup st.connectedClients addr with
    | none => .panic []
    | some _ =>
      -- ... and then `authenticated_address.unwrap()` panics
      .panic [(addr, .authReconnectChallenge .failUnknown0)]
  | some authenticatedAddress =>
    match alLookup st.connectedClients authenticatedAddress with
    | none => .panic []
    | some authenticatedClient =>
      match authenticatedClient.authentication with
      | none => .panic []
      | some auth =>
        match alLookup st.connectedClients addr with
        | none => .panic []
        | some _ =>
          .ok (setClientStateAt st addr (some (.reconnectProof accountName)))
            [(addr, .authReconnectChallenge (.success auth.reconnectChallengeData))]

/-- `ClientManager::handle_reconnect_proof`.  `verifyOk` is the result of
the external `srp_server.verify_reconnection_attempt`. -/
def handleReconnectProof (st : ClientManagerState) (addr : Addr)
    (verifyOk : Bool) : AuthOutcome :=
  match alLookup st.connectedClients addr with
  | none => .panic []
  | some reconnectingClient =>
    match reconnectingClient.state with
    | some (.reconnectProof username) =>
      match alLookup st.authenticatedAddresses username with
      | none => .panic []
      | some authenticatedAddress =>
        match alLookup st.connectedClients authenticatedAddress with
        | none => .panic []
        | some staleClient =>
          match staleClient.authentication with
          | none => .panic []
          | some _ =>
            let reply : ReconnectProofResult :=
              if verifyOk then .success else .failIncorrectPassword
            let sends := [(addr, AuthServerEvent.authReconnectProof reply)]
            if verifyOk then
              -- remove the stale client, move its Authentication over;
              -- `authenticated_addresses` is left untouched
              let st1 :=
                { st with connectedClients := alRemove st.connectedClients authenticatedAddress }
              match alLookup st1.connectedClients addr with
              | none => .panic sends
              | some rc =>
                .ok (setClientAt st1 addr
                    { rc with authentication := staleClient.authentication,
                              state := some .logOnProof }) sends
            else
              .ok (setClientStateAt st addr (some .connected)) sends
    | _ =>
      -- reject_logon_proof(FailUnknownAccount) then return Err
      .err st [(addr, .authLogonProof .failUnknownAccount)]

/-- The error branch of `ClientManager::run`: when a handler returns `Err`,
the manager removes the client (`unwrap()` panics when absent) and sends it
a `Disconnect` mailbox event. -/
def runDispatch (outcome : AuthOutcome) (addr : Addr) : AuthOutcome :=
  match outcome with
  | .ok st sends => .ok st sends
  | .err st sends =>
    match alLookup st.connectedClients addr with
    | none => .panic sends
    | some _ =>
      .ok { st with connectedClients := alRemove st.connectedClients addr }
        (sends ++ [(addr, .disconnect)])
  | .panic sends => .panic sends

@[simp] theorem alLookup_alInsert_self {α β : Type} [DecidableEq α]
    (l : List (α × β)) (k : α) (v : β) : alLookup (alInsert l k v) k = some v := by
  induction l with
  | nil => simp [alInsert, alLookup]
  | cons hd tl ih =>
    by_cases h : hd.1 = k
    · simp [alInsert, alLookup, h]
    · simpa [alInsert, alLookup, h] using ih

theorem alLookup_alInsert_ne {α β : Type} [DecidableEq α]
    (l : List (α × β)) (k k2 : α) (v : β) (h : k ≠ k2) :
    alLookup (alInsert l k v) k2 = alLookup l k2 := by
  induction l with
  | nil => simp [alInsert, alLookup, h]
  | cons hd tl ih =>
    by_cases h1 : hd.1 = k
    · simp [alInsert, alLookup, h1, h]
    · simp [alInsert, alLookup, h1, ih]

theorem alLookup_alRemove_ne {α β : Type} [DecidableEq α]
    (l : List (α × β)) (k k2 : α) (h : k ≠ k2) :
    alLookup (alRemove l k) k2 = alLookup l k2 := by
  induction l with
  | nil => simp [alRemove]
  | cons hd tl ih =>
    by_cases h1 : hd.1 = k
    · simp [alRemove, alLookup, h1, h]
    · simp [alRemove, alLookup, h1, ih]

theorem alLookup_alRemove_self {α β : Type} [DecidableEq α]
    (l : List (α × β)) (k : α) (hnodup : (l.map Prod.fst).Nodup) :
    alLookup (alRemove l k) k = none := by
  induction l with
  | nil => simp [alRemove, alLookup]
  | cons hd tl ih =>
    simp only [List.map_cons, List.nodup_cons] at hnodup
    by_cases h1 : hd.1 = k
    · subst h1
      cases hmem : alLookup tl hd.1 with
      | none => simp [alRemove, hmem]
      | some v =>
        exfalso
        apply hnodup.1
        clear ih hnodup
        induction tl with
        | nil => simp [alLookup] at hmem
        | cons hd2 tl2 ih2 =>
          by_cases h2 : hd2.1 = hd.1
          · simp [h2]
          · simp only [alLookup, h2, if_false] at hmem
            simp [ih2 hmem]
    · simp [alRemove, alLookup, h1, ih hnodup.2]

/-! ## Auth server claim theorems -/

/-- C7: `CMD_AUTH_LOGON_CHALLENGE` rejection behaviour.  If the account is
absent or its stored `v`/`s` is empty, the reply is `FailUnknownAccount`;
a banned account gets `FailBanned`, with the ban check performed before the
empty-verifier check (a banned account with empty `v` still gets
`FailBanned`); in each case the session state is set to `Connected`. -/
theorem auth_logon_challenge_rejections
    (st : ClientManagerState) (addr : Addr) (c : AuthClient) (acc : Account) (decodeOk : Bool)
    (hc : alLookup st.connectedClients addr = some c) :
    (handleAuthLogonChallenge st addr none decodeOk =
      .ok (setClientStateAt st addr (some .connected))
        [(addr, .authLogonChallenge .failUnknownAccount)])
    ∧ (acc.banned ≠ 0 → handleAuthLogonChallenge st addr (some acc) decodeOk =
      .ok (setClientStateAt st addr (some .connected))
        [(addr, .authLogonChallenge .failBanned)])
    ∧ (acc.banned = 0 → (acc.v = "" ∨ acc.s = "") →
      handleAuthLogonChallenge st addr (some acc) decodeOk =
      .ok (setClientStateAt st addr (some .connected))
        [(addr, .authLogonChallenge .failUnknownAccount)])
    ∧ alLookup (setClientStateAt st addr (some .connected)).connectedClients addr =
        some { c with state := some .connected } := by
  refine ⟨?_, ?_, ?_, ?_⟩
  · simp [handleAuthLogonChallenge, hc]
  · intro hbanned
    simp [handleAuthLogonChallenge, hc, hbanned]
  · intro hbanned hvs
    simp [handleAuthLogonChallenge, hc, hbanned, hvs]
  · simp [setClientStateAt, hc]

/-- Witness for C7 at a concrete input: a banned account with empty `v`
still receives `FailBanned` (the ban check runs first). -/
theorem auth_logon_challenge_rejections_witness :
    handleAuthLogonChallenge
        { connectedClients := [(1, { state := some .connected, authentication := none })],
          authenticatedAddresses := [] } 1
        (some { id := 7, username := "bob", v := "", s := "", sessionkey := "", banned := 1 }) true =
      .ok (setClientStateAt
        { connectedClients := [(1, { state := some .connected, authentication := none })],
          authenticatedAddresses := [] } 1 (some .connected))
        [(1, .authLogonChallenge .failBanned)] :=
  (auth_logon_challenge_rejections
    { connectedClients := [(1, { state := some .connected, authentication := none })],
      authenticatedAddresses := [] } 1
    { state := some .connected, authentication := none }
    { id := 7, username := "bob", v := "", s := "", sessionkey := "", banned := 1 } true
    (by simp [alLookup])).2.1 (by decide)

/-- C6 counterexample: a `CMD_AUTH_LOGON_PROOF` with a malformed client
public key is answered with `FailIncorrectPassword`, but then the handler
returns an error and `ClientManager::run` removes the session and sends a
`Disconnect` mailbox event — the client is NOT retained for a retry, in
contradiction with the claim. -/
theorem auth_logon_proof_malformed_key_disconnects_cex :
    runDispatch
      (handleAuthLogonProof
        { connectedClients := [(1, { state := some (.challengeProof "bob"), authentication := none })],
          authenticatedAddresses := [] } 1 false true 0 0) 1 =
      .ok { connectedClients := [], authenticatedAddresses := [] }
        [(1, .authLogonProof .failIncorrectPassword), (1, .disconnect)] := by
  decide

/-- C6 amended: on a malformed client public key (and likewise on SRP proof
failure) the server replies `FailIncorrectPassword`, after which the
handler's error makes `ClientManager::run` remove the session and send a
`Disconnect` event to the client. -/
theorem auth_logon_proof_rejection_disconnects
    (st : ClientManagerState) (addr : Addr) (c : AuthClient)
    (srpToken reconnectData : Nat)
    (hc : alLookup st.connectedClients addr = some c) :
    (runDispatch (handleAuthLogonProof st addr false true srpToken reconnectData) addr =
      .ok { st with connectedClients := alRemove st.connectedClients addr }
        [(addr, .authLogonProof .failIncorrectPassword), (addr, .disconnect)])
    ∧ (∀ username, c.state = some (.challengeProof username) →
      runDispatch (handleAuthLogonProof st addr true false srpToken reconnectData) addr =
      .ok { connectedClients :=
              alRemove (alInsert st.connectedClients addr { c with state := none }) addr,
            authenticatedAddresses := st.authenticatedAddresses }
        [(addr, .authLogonProof .failIncorrectPassword), (addr, .disconnect)]) := by
  constructor
  · simp [handleAuthLogonProof, runDispatch, hc]
  · intro username hstate
    simp [handleAuthLogonProof, runDispatch, hc, hstate, setClientAt,
      alLookup_alInsert_self]

/-- Witness for C6's amended theorem at a concrete input. -/
theorem auth_logon_proof_rejection_disconnects_witness :
    runDispatch
      (handleAuthLogonProof
        { connectedClients := [(3, { state := some (.challengeProof "eve"), authentication := none })],
          authenticatedAddresses := [] } 3 true false 0 0) 3 =
      .ok { connectedClients :=
              alRemove (alInsert
                [(3, { state := some (.challengeProof "eve"), authentication := none })] 3
                { state := none, authentication := none }) 3,
            authenticatedAddresses := [] }
        [(3, .authLogonProof .failIncorrectPassword), (3, .disconnect)] :=
  (auth_logon_proof_rejection_disconnects
    { connectedClients := [(3, { state := some (.challengeProof "eve"), authentication := none })],
      authenticatedAddresses := [] } 3
    { state := some (.challengeProof "eve"), authentication := none } 0 0 rfl).2 "eve" rfl

/-- C5: when `CMD_AUTH_RECONNECT_CHALLENGE` names a username with no
`authenticated_addresses` entry, the handler does send `FailUnknown0` to the
reconnecting client but then falls through to `authenticated_address.unwrap()`
on the absent value and panics — contradicting the claim that the handler
completes without panicking. -/
theorem reconnect_challenge_unknown_username_panics
    (st : ClientManagerState) (addr : Addr) (name : String) (c : AuthClient)
    (hn : alLookup st.authenticatedAddresses name = none)
    (hc : alLookup st.connectedClients addr = some c) :
    handleReconnectChallenge st addr name =
      .panic [(addr, .authReconnectChallenge .failUnknown0)] := by
  simp [handleReconnectChallenge, hn, hc]

/-- Witness for C5 at the concrete failing input: one connected client at
address 1 asking to reconnect as the unknown account `ghost`. -/
theorem reconnect_challenge_unknown_username_panics_witness :
    handleReconnectChallenge
      { connectedClients := [(1, { state := some .connected, authentication := none })],
        authenticatedAddresses := [] } 1 "ghost" =
      .panic [(1, .authReconnectChallenge .failUnknown0)] :=
  reconnect_challenge_unknown_username_panics
    { connectedClients := [(1, { state := some .connected, authentication := none })],
      authenticatedAddresses := [] } 1 "ghost"
    { state := some .connected, authentication := none } (by simp [alLookup]) (by simp [alLookup])

/-- C2 counterexample: peer P1 = address 1 holds the authentication for
`alice`; peer P2 = address 2 is in `ReconnectProof` and its proof verifies.
The server replies `Success` and moves the `Authentication` to P2, but
`authenticated_addresses` is never updated: afterwards it still maps
`alice` to address 1, not to P2's address 2 as the claim states. -/
theorem reconnect_proof_stale_address_cex :
    handleReconnectProof
      { connectedClients :=
          [(1, { state := some .logOnProof,
                 authentication := some { username := "alice", srpId := 5, reconnectChallengeData := 99 } }),
           (2, { state := some (.reconnectProof "alice"), authentication := none })],
        authenticatedAddresses := [("alice", 1)] } 2 true =
      .ok { connectedClients :=
              [(2, { state := some .logOnProof,
                     authentication := some { username := "alice", srpId := 5, reconnectChallengeData := 99 } })],
            authenticatedAddresses := [("alice", 1)] }
        [(2, .authReconnectProof .success)] ∧ (1 : Addr) ≠ 2 := by
  constructor
  · decide
  · decide

/-- C2 amended: when the reconnecting peer P2 is in `ReconnectProof` and the
proof verifies, the server replies `Success`, the `Authentication` moves
from the prior peer P1's session (which is removed from `connected_clients`)
to P2's session, and P2 enters `LogOnProof`; but the
`authenticated_addresses` entry for the username is left unchanged and
afterwards still maps to P1's address. -/
theorem reconnect_proof_success_moves_authentication
    (st : ClientManagerState) (addr p1Addr : Addr) (rc stale : AuthClient)
    (username : String) (auth : Authentication)
    (hrc : alLookup st.connectedClients addr = some rc)
    (hstate : rc.state = some (.reconnectProof username))
    (haddr : alLookup st.authenticatedAddresses username = some p1Addr)
    (hstale : alLookup st.connectedClients p1Addr = some stale)
    (hauth : stale.authentication = some auth)
    (hne : p1Addr ≠ addr)
    (hnodup : (st.connectedClients.map Prod.fst).Nodup) :
    handleReconnectProof st addr true =
      .ok { connectedClients := alInsert (alRemove st.connectedClients p1Addr) addr
              { rc with authentication := some auth, state := some .logOnProof },
            authenticatedAddresses := st.authenticatedAddresses }
        [(addr, .authReconnectProof .success)]
    ∧ alLookup (alInsert (alRemove st.connectedClients p1Addr) addr
        { rc with authentication := some auth, state := some .logOnProof }) addr =
          some { rc with authentication := some auth, state := some .logOnProof }
    ∧ alLookup (alInsert (alRemove st.connectedClients p1Addr) addr
        { rc with authentication := some auth, state := some .logOnProof }) p1Addr = none := by
  have hremove : alLookup (alRemove st.connectedClients p1Addr) addr = some rc := by
    rw [alLookup_alRemove_ne _ _ _ hne]; exact hrc
  refine ⟨?_, alLookup_alInsert_self _ _ _, ?_⟩
  · simp [handleReconnectProof, hrc, hstate, haddr, hstale, hauth, hremove, setClientAt]
  · rw [alLookup_alInsert_ne _ _ _ _ (fun h => hne h.symm)]
    exact alLookup_alRemove_self _ _ hnodup

/-- Witness for C2's amended theorem, applying it at the counterexample's
concrete input. -/
theorem reconnect_proof_success_moves_authentication_witness :
    handleReconnectProof
      { connectedClients :=
          [(1, { state := some .logOnProof,
                 authentication := some { username := "alice", srpId := 5, reconnectChallengeData := 99 } }),
           (2, { state := some (.reconnectProof "alice"), authentication := none })],
        authenticatedAddresses := [("alice", 1)] } 2 true =
      .ok { connectedClients := alInsert (alRemove
              [(1, { state := some .logOnProof,
                     authentication := some { username := "alice", srpId := 5, reconnectChallengeData := 99 } }),
               (2, { state := some (.reconnectProof "alice"), authentication := none })] 1) 2
              { state := some .logOnProof,
                authentication := some { username := "alice", srpId := 5, reconnectChallengeData := 99 } },
            authenticatedAddresses := [("alice", 1)] }
        [(2, .authReconnectProof .success)] :=
  (reconnect_proof_success_moves_authentication
    { connectedClients :=
        [(1, { state := some .logOnProof,
               authentication := some { username := "alice", srpId := 5, reconnectChallengeData := 99 } }),
         (2, { state := some (.reconnectProof "alice"), authentication := none })],
      authenticatedAddresses := [("alice", 1)] } 2 1
    { state := some (.reconnectProof "alice"), authentication := none }
    { state := some .logOnProof,
      authentication := some { username := "alice", srpId := 5, reconnectChallengeData := 99 } }
    "alice" { username := "alice", srpId := 5, reconnectChallengeData := 99 }
    (by decide) (by decide) (by decide) (by decide) (by decide) (by decide) (by decide)).1

/-! ## World server data model (src/world_server)

Characters, the per-map spatial index and the map tick
(`world/map_manager.rs`), plus the far-teleport ack handler
(`handlers/movement_handler.rs`).  World coordinates (`f32` in the source)
are modelled as exact integers.  The `Character` struct itself lives in the
repository's `character/mod.rs`, which is not part of the provided sources;
its simple accessors (interest set, recently-removed set, pending update
queue, position, time-sync counter) are modelled from the spec (sections 3,
4.6 and 4.8) and documented on each definition. -/

abbrev Guid := Nat

structure Position where
  x : Int
  y : Int
  z : Int
  deriving Repr, DecidableEq

/-- `data::WorldZoneLocation` (a far-teleport destination). -/
structure WorldZoneLocation where
  map : Nat
  pos : Position
  orientation : Int
  deriving Repr, DecidableEq

/-- `movement_handler.rs` `TeleportationDistance`. -/
inductive TeleportationDistance where
  | near (dest : Position)
  | far (dest : WorldZoneLocation)
  deriving Repr, DecidableEq

/-- `movement_handler.rs` `TeleportationState`. -/
inductive TeleportationState where
  | none
  | queued (dist : TeleportationDistance)
  | executing (dist : TeleportationDistance)
  deriving Repr, DecidableEq

/-- Object-update blocks (`world/update_builder.rs` is not in the provided
sources; the block shapes are modelled from the spec's update-block
composition contract in section 4.6: create = full image of the target for
one observer, values = sparse dirty-field image of the source, out-of-range
= the list of recently-removed guids). -/
inductive UpdateBlock where
  | create (observer target : Guid)
  | values (source : Guid)
  | outOfRange (guids : List Guid)
  deriving Repr, DecidableEq

/-- Messages pushed onto a character's connection mailbox
(`ServerEvent` in `connection/events.rs`, restricted to what the map tick
and teleport handlers produce). -/
inductive WorldEvent where
  | destroyObject (guid : Guid) (targetDied : Bool)
  | updateObject (blocks : List UpdateBlock)
  deriving Repr, DecidableEq

/-- The parts of `Character` the map tick and teleport handlers touch.
Fields follow the spec's data model (section 3); `hasDirtyFields` stands
for `UpdateMask::Player(..).has_any_dirty_fields()` (every character is a
player here, matching the only supported case in `MapManager::tick`);
`sent` is the character's outbound connection mailbox. -/
structure WChar where
  guid : Guid
  map : Nat
  position : Option Position
  inRange : List Guid
  recentlyRemoved : List Guid
  pending : List UpdateBlock
  hasDirtyFields : Bool
  timeSyncCounter : Nat
  teleportState : TeleportationState
  sent : List WorldEvent
  deriving Repr, DecidableEq

/-- `CharacterManager`: keyed store of live characters. -/
abbrev CharacterManager := List (Guid × WChar)

/-- `CharacterManager::get_character` (returns an error when absent). -/
def getCharacter (cm : CharacterManager) (g : Guid) : Except String WChar :=
  match alLookup cm g with
  | some c => .ok c
  | none => .error "character not found"

/-- Write back a (possibly mutated) character record. -/
def setCharacter (cm : CharacterManager) (g : Guid) (c : WChar) : CharacterManager :=
  alInsert cm g c

/-- Modelled from the spec: `Character::remove_in_range_object` removes the
guid from the interest set and records it in the recently-removed set
(section 4.6c: recently-removed observers are collected by movement
handlers, "not only by map removal"). -/
def removeInRangeObject (c : WChar) (g : Guid) : WChar :=
  { c with inRange := c.inRange.filter (fun x => x ≠ g),
           recentlyRemoved := c.recentlyRemoved ++ [g] }

/-- Modelled from the spec: `Character::add_in_range_character`. -/
def addInRangeCharacter (c : WChar) (g : Guid) : WChar :=
  { c with inRange := c.inRange ++ [g] }

/-- Modelled from the spec: `Character::is_in_range`. -/
def isInRange (c : WChar) (g : Guid) : Bool :=
  c.inRange.contains g

/-- Modelled from the spec: `push_object_update` appends to the pending
outbound-update queue. -/
def pushObjectUpdate (c : WChar) (b : UpdateBlock) : WChar :=
  { c with pending := c.pending ++ [b] }

/-- `packet.rs` `send_to_character`: push an event onto the character's
connection mailbox. -/
def sendToCharacter (c : WChar) (e : WorldEvent) : WChar :=
  { c with sent := c.sent ++ [e] }

/-- `handlers/world_handler.rs` `send_destroy_object`: sends
`SMSG_DESTROY_OBJECT { guid, target_died }` to `recipient`'s connection. -/
def sendDestroyObject (recipient : WChar) (objectGuid : Guid) (isDeath : Bool) : WChar :=
  sendToCharacter recipient (.destroyObject objectGuid isDeath)

/-- Modelled from the spec: `build_out_of_range_update_block_for_player`
produces a single out-of-range block listing the recently-removed guids
when that list is non-empty (`update_builder.rs` is not in the provided
sources). -/
def buildOutOfRangeUpdateBlockForPlayer (c : WChar) : Option UpdateBlock :=
  if c.recentlyRemoved.isEmpty then none else some (.outOfRange c.recentlyRemoved)

/-- Modelled from the spec: `build_values_update_block` (sparse dirty-field
image of the character). -/
def buildValuesUpdateBlock (c : WChar) : UpdateBlock :=
  .values c.guid

/-- Modelled from the spec: `build_create_update_block_for_player observer
target` — full field image of `target` tailored for `observer`. -/
def buildCreateUpdateBlockForPlayer (observer target : WChar) : UpdateBlock :=
  .create observer.guid target.guid

/-- Modelled from the spec: `process_pending_updates` flushes the pending
blocks to the wire as one `SMSG_UPDATE_OBJECT` (section 4.6d). -/
def processPendingUpdates (c : WChar) : WChar :=
  if c.pending.isEmpty then c
  else { c with pending := [], sent := c.sent ++ [.updateObject c.pending] }

/-- An entry of the rstar R-tree over character XY positions. -/
structure RStarTreeItem where
  x : Int
  y : Int
  guid : Guid
  deriving Repr, DecidableEq

/-- rstar `PointDistance::distance_2`: the SQUARED euclidean distance. -/
def distance2 (it : RStarTreeItem) (px py : Int) : Int :=
  (it.x - px) * (it.x - px) + (it.y - py) * (it.y - py)

/-- rstar `RTree::locate_within_distance(point, max_squared_radius)`: per
the library's documented contract, the second argument is a bound on the
SQUARED distance. -/
def locateWithinDistance (tree : List RStarTreeItem) (px py : Int)
    (maxSquaredRadius : Int) : List RStarTreeItem :=
  tree.filter (fun it => distance2 it px py ≤ maxSquaredRadius)

/-- `map_manager.rs` `VISIBILITY_RANGE = 5000.0f32`. -/
def VISIBILITY_RANGE : Int := 5000

/-- `world/map_manager.rs` `MapManager`. -/
structure MapManager where
  id : Nat
  charactersOnMap : List Guid
  charactersQueryTree : List RStarTreeItem
  addQueue : List Guid
  removeQueue : List Guid
  deriving Repr, DecidableEq

/-- `MapManager::new`. -/
def MapManager.new (id : Nat) : MapManager :=
  { id := id, charactersOnMap := [], charactersQueryTree := [],
    addQueue := [], removeQueue := [] }

/-- `MapManager::rebuild_object_querying_tree`. -/
def rebuildObjectQueryingTree (m : MapManager) (cm : CharacterManager) :
    Except String MapManager := do
  let objList ← m.charactersOnMap.foldlM (fun acc g => do
      let c ← getCharacter cm g
      match c.position with
      | some p => pure (acc ++ [RStarTreeItem.mk p.x p.y g])
      | none => pure acc) ([] : List RStarTreeItem)
  pure { m with charactersQueryTree := objList }

/-- `MapManager::update_in_range_set` (map_manager.rs:152-230).

Note the faithful reproduction of the source's inner loop: the loop
variable over `destroyed_guids` SHADOWS the `guid` parameter, so
`send_destroy_object` is called with the departed character itself as the
recipient and its own guid as the destroyed object. -/
def updateInRangeSet (m : MapManager) (guid : Guid) (cm : CharacterManager) :
    Except String CharacterManager := do
  let c ← getCharacter cm guid
  match c.position with
  | none => pure cm
  | some pos =>
    let withinRange :=
      (locateWithinDistance m.charactersQueryTree pos.x pos.y VISIBILITY_RANGE).map
        (fun it => it.guid)
    -- removal phase: iterate a snapshot of the in-range list, mutating the
    -- borrowed character and collecting the removed guids
    let character ← getCharacter cm guid
    let removePhase := character.inRange.foldl
      (fun (acc : WChar × List Guid) g =>
        if withinRange.contains g then acc
        else (removeInRangeObject acc.1 g, acc.2 ++ [g]))
      (character, [])
    let cm := setCharacter cm guid removePhase.1
    -- `for guid in destroyed_guids { let character = get_character(guid)?;
    --  send_destroy_object(character, guid, false) }`
    let cm ← removePhase.2.foldlM (fun cm g => do
        let ch ← getCharacter cm g
        pure (setCharacter cm g (sendDestroyObject ch g false))) cm
    -- addition phase
    withinRange.foldlM (fun cm otherGuid => do
        if otherGuid = guid then
          pure cm
        else do
          let character ← getCharacter cm guid
          if isInRange character otherGuid then
            pure cm
          else do
            let other ← getCharacter cm otherGuid
            let cm := setCharacter cm otherGuid (addInRangeCharacter other guid)
            let other ← getCharacter cm otherGuid
            let character ← getCharacter cm guid
            let cm := setCharacter cm otherGuid
              (pushObjectUpdate other (buildCreateUpdateBlockForPlayer other character))
            let character ← getCharacter cm guid
            let cm := setCharacter cm guid (addInRangeCharacter character otherGuid)
            let other ← getCharacter cm otherGuid
            let character ← getCharacter cm guid
            pure (setCharacter cm guid
              (pushObjectUpdate character (buildCreateUpdateBlockForPlayer character other)))) cm

/-- `MapManager::push_character_internal` (the `on_pushed_to_map` callback
touches none of the modelled character fields; per spec section 4.6 step 3
it only marks the character as pushed). -/
def pushCharacterInternal (m : MapManager) (guid : Guid) (cm : CharacterManager) :
    Except String (MapManager × CharacterManager) := do
  let c ← getCharacter cm guid
  match c.position with
  | none => .error "panic: character position unwrap in push_character_internal"
  | some p =>
    let onMap :=
      if m.charactersOnMap.contains guid then m.charactersOnMap
      else m.charactersOnMap ++ [guid]
    let tree := m.charactersQueryTree ++ [RStarTreeItem.mk p.x p.y guid]
    pure ({ m with charactersOnMap := onMap, charactersQueryTree := tree }, cm)

/-- `MapManager::process_add_queue`. -/
def processAddQueue (m : MapManager) (cm : CharacterManager) :
    Except String (MapManager × CharacterManager × Bool) := do
  let hasAnyAdded := !m.addQueue.isEmpty
  let mcm ← m.addQueue.foldlM
    (fun (acc : MapManager × CharacterManager) g => pushCharacterInternal acc.1 g acc.2)
    (m, cm)
  pure ({ mcm.1 with addQueue := [] }, mcm.2, hasAnyAdded)

/-- `MapManager::remove_object_by_guid_internal`. -/
def removeObjectByGuidInternal (m : MapManager) (guid : Guid) (cm : CharacterManager) :
    Except String (MapManager × CharacterManager) := do
  if m.charactersOnMap.contains guid then
    let m := { m with charactersOnMap := m.charactersOnMap.filter (fun g => g ≠ guid) }
    match alLookup cm guid with
    | some removedCharacter =>
      let inRangeGuids := removedCharacter.inRange
      let cm ← (inRangeGuids.filter (fun g => m.charactersOnMap.contains g)).foldlM
        (fun cm g => do
          let ch ← getCharacter cm g
          let ch := sendDestroyObject ch guid false
          pure (setCharacter cm g (removeInRangeObject ch guid))) cm
      -- `clear_in_range_objects` (modelled from the spec, section 4.6
      -- step 2: "clear its interest set")
      let removed ← getCharacter cm guid
      let cm := setCharacter cm guid { removed with inRange := [] }
      let m ← rebuildObjectQueryingTree m cm
      pure (m, cm)
    | none =>
      -- character is gone: brute-force removal from everything on the map
      let cm ← m.charactersOnMap.foldlM (fun cm g => do
          let ch ← getCharacter cm g
          if isInRange ch guid then
            pure (setCharacter cm g (removeInRangeObject ch guid))
          else
            pure cm) cm
      let m ← rebuildObjectQueryingTree m cm
      pure (m, cm)
  else
    pure (m, cm)

/-- `MapManager::process_remove_queue`. -/
def processRemoveQueue (m : MapManager) (cm : CharacterManager) :
    Except String (MapManager × CharacterManager × Bool) := do
  let anyToRemove := !m.removeQueue.isEmpty
  let mcm ← m.removeQueue.foldlM
    (fun (acc : MapManager × CharacterManager) g => removeObjectByGuidInternal acc.1 g acc.2)
    (m, cm)
  pure ({ mcm.1 with removeQueue := [] }, mcm.2, anyToRemove)

/-- `MapManager::tick` (map_manager.rs:68-116).  The iteration order over
`characters_on_map` (a `HashSet` in the source) is modelled by list order.

Note the faithful reproduction of the source's flag computation:
`has_something_recently_removed` is assigned
`get_recently_removed_range_guids().is_empty()` — i.e. it is TRUE exactly
when the recently-removed list is EMPTY. -/
def mapTick (m : MapManager) (cm : CharacterManager) :
    Except String (MapManager × CharacterManager) := do
  let m ← rebuildObjectQueryingTree m cm
  let (m, cm, anyRemoved) ← processRemoveQueue m cm
  let (m, cm, anyAdded) ← processAddQueue m cm
  let cm ← m.charactersOnMap.foldlM (fun cm guid => do
      let cm ← updateInRangeSet m guid cm
      let c ← getCharacter cm guid
      let hasAnyUpdateBit := c.hasDirtyFields
      let hasSomethingRecentlyRemoved := c.recentlyRemoved.isEmpty
      let cm ←
        if hasAnyUpdateBit || anyRemoved || anyAdded || hasSomethingRecentlyRemoved then do
          let c ← getCharacter cm guid
          let cm :=
            match buildOutOfRangeUpdateBlockForPlayer c with
            | some block =>
              setCharacter cm guid (pushObjectUpdate { c with recentlyRemoved := [] } block)
            | none => cm
          if hasAnyUpdateBit then do
            let c ← getCharacter cm guid
            let valuesUpdate := buildValuesUpdateBlock c
            let cm := setCharacter cm guid (pushObjectUpdate c valuesUpdate)
            let c ← getCharacter cm guid
            let cm ← c.inRange.foldlM (fun cm g => do
                let ch ← getCharacter cm g
                pure (setCharacter cm g (pushObjectUpdate ch valuesUpdate))) cm
            let c ← getCharacter cm guid
            pure (setCharacter cm guid { c with hasDirtyFields := false })
          else
            pure cm
        else
          pure cm
      let c ← getCharacter cm guid
      pure (setCharacter cm guid (processPendingUpdates c))) cm
  pure (m, cm)

/-! ## Map tick claim scenarios (C1, C3, C8) -/

/-- A character with empty interest/update state at a given position. -/
def mkWChar (guid : Guid) (mapId : Nat) (pos : Option Position) : WChar :=
  { guid := guid, map := mapId, position := pos, inRange := [], recentlyRemoved := [],
    pending := [], hasDirtyFields := false, timeSyncCounter := 0,
    teleportState := .none, sent := [] }

/-- Interest set of character `g` after one tick of map `m`. -/
def tickInRangeOf (m : MapManager) (cm : CharacterManager) (g : Guid) :
    Option (List Guid) :=
  match mapTick m cm with
  | .ok (_, cm2) => (alLookup cm2 g).map WChar.inRange
  | .error _ => none

/-- Connection-mailbox contents of character `g` after one tick of map `m`. -/
def tickSentTo (m : MapManager) (cm : CharacterManager) (g : Guid) :
    Option (List WorldEvent) :=
  match mapTick m cm with
  | .ok (_, cm2) => (alLookup cm2 g).map WChar.sent
  | .error _ => none

/-- Recently-removed list of character `g` after one tick of map `m`. -/
def tickRecentlyRemovedOf (m : MapManager) (cm : CharacterManager) (g : Guid) :
    Option (List Guid) :=
  match mapTick m cm with
  | .ok (_, cm2) => (alLookup cm2 g).map WChar.recentlyRemoved
  | .error _ => none

/-- Pending update queue of character `g` after one tick of map `m`. -/
def tickPendingOf (m : MapManager) (cm : CharacterManager) (g : Guid) :
    Option (List UpdateBlock) :=
  match mapTick m cm with
  | .ok (_, cm2) => (alLookup cm2 g).map WChar.pending
  | .error _ => none

/-- C1 scenario: two characters on map 0, 100 world units apart in XY. -/
def visRangeChars : CharacterManager :=
  [(1, mkWChar 1 0 (some { x := 0, y := 0, z := 0 })),
   (2, mkWChar 2 0 (some { x := 100, y := 0, z := 0 }))]

/-- C1 scenario map. -/
def visRangeMap : MapManager :=
  { id := 0, charactersOnMap := [1, 2], charactersQueryTree := [],
    addQueue := [], removeQueue := [] }

/-- C1: the two characters are 100 units apart — well inside the claimed
`VISIBILITY_RANGE = 5000` world units (their squared distance 10000 is at
most `5000 * 5000`) — yet after a tick neither is in the other's interest
set, because `update_in_range_set` passes `VISIBILITY_RANGE` directly as
rstar's `max_squared_radius`, so only characters with SQUARED distance at
most 5000 (true distance ≤ ~70.7) enter the interest sets. -/
theorem visibility_range_is_squared_distance_cex :
    distance2 { x := 100, y := 0, guid := 2 } 0 0 = 10000 ∧
    (10000 : Int) ≤ VISIBILITY_RANGE * VISIBILITY_RANGE ∧
    ¬ (10000 : Int) ≤ VISIBILITY_RANGE ∧
    tickInRangeOf visRangeMap visRangeChars 1 = some [] ∧
    tickInRangeOf visRangeMap visRangeChars 2 = some [] := by
  refine ⟨by decide, by decide, by decide, by decide, by decide⟩

/-- C3 scenario: the same two characters, but each currently holds the
other in its interest set (they were in range before one moved away). -/
def leaveRangeChars : CharacterManager :=
  [(1, { mkWChar 1 0 (some { x := 0, y := 0, z := 0 }) with inRange := [2] }),
   (2, { mkWChar 2 0 (some { x := 100, y := 0, z := 0 }) with inRange := [1] })]

/-- C3: when character 2 has left character 1's range (and vice versa),
each is indeed removed from the other's interest set, but the
destroy-object is delivered to the WRONG peer: the inner loop of
`update_in_range_set` shadows `guid`, so each client receives a
destroy-object for its OWN character's guid instead of the departed
other's.  Client 1's whole mailbox after the tick is
`[destroyObject 1 false]` — it never receives a destroy for guid 2. -/
theorem leave_range_destroy_sent_to_departed_character_cex :
    tickSentTo visRangeMap leaveRangeChars 1 = some [.destroyObject 1 false] ∧
    tickSentTo visRangeMap leaveRangeChars 2 = some [.destroyObject 2 false] ∧
    tickInRangeOf visRangeMap leaveRangeChars 1 = some [] ∧
    tickInRangeOf visRangeMap leaveRangeChars 2 = some [] := by
  refine ⟨by decide, by decide, by decide, by decide⟩

/-- C8 scenario: one character whose recently-removed list is non-empty and
for which no other update trigger fires this tick. -/
def recentlyRemovedChars : CharacterManager :=
  [(1, { mkWChar 1 0 (some { x := 0, y := 0, z := 0 }) with recentlyRemoved := [7] })]

/-- C8 scenario map. -/
def recentlyRemovedMap : MapManager :=
  { id := 0, charactersOnMap := [1], charactersQueryTree := [],
    addQueue := [], removeQueue := [] }

/-- C8: the character's recently-removed list `[7]` would yield an
out-of-range block, but because `MapManager::tick` computes
`has_something_recently_removed` as `is_empty()` (not `!is_empty()`), the
update branch is skipped: after the tick nothing was sent, nothing is
pending, and the recently-removed list was NOT cleared. -/
theorem recently_removed_flag_inverted_cex :
    buildOutOfRangeUpdateBlockForPlayer
      { mkWChar 1 0 (some { x := 0, y := 0, z := 0 }) with recentlyRemoved := [7] } =
      some (.outOfRange [7]) ∧
    tickRecentlyRemovedOf recentlyRemovedMap recentlyRemovedChars 1 = some [7] ∧
    tickSentTo recentlyRemovedMap recentlyRemovedChars 1 = some [] ∧
    tickPendingOf recentlyRemovedMap recentlyRemovedChars 1 = some [] := by
  refine ⟨by decide, by decide, by decide, by decide⟩

/-! ## Far-teleport acknowledgement (C4) -/

/-- `world/mod.rs` `World`, restricted to `InstanceManager::world_maps`
(`is_instance` always returns `false` in the source, so the
`multiple_instances` side is unreachable for every map id). -/
structure World where
  worldMaps : List (Nat × MapManager)
  deriving Repr, DecidableEq

/-- `InstanceManager::get_or_create_map` for a non-instance map id:
`world_maps.entry(map).or_insert_with(|| MapManager::new(map))`. -/
def getOrCreateMap (w : World) (mapId : Nat) : World :=
  match alLookup w.worldMaps mapId with
  | some _ => w
  | none => { w with worldMaps := alInsert w.worldMaps mapId (MapManager.new mapId) }

/-- `MapManager::push_character`: appends the guid to the map's add queue. -/
def mapPushCharacter (w : World) (mapId : Nat) (guid : Guid) : World :=
  match alLookup w.worldMaps mapId with
  | some m =>
    { w with worldMaps := alInsert w.worldMaps mapId { m with addQueue := m.addQueue ++ [guid] } }
  | none => w

/-- `handlers/movement_handler.rs` `handle_msg_move_worldport_ack`
(lines 149-189), for the client whose active character is `guid`.

`set_position` and `reset_time_sync` are `Character` methods from the
repository's `character/mod.rs` (not among the provided sources); they are
modelled from the spec (section 4.8: set the position, reset the time-sync
counter).  The `send_packets_before/after_add_to_map` bursts touch none of
the modelled state and are elided.  Note that the handler never removes the
character from its previous map: the only call of
`MapManager::remove_object_by_guid` in the sources is in
`InstanceManager::handle_client_disconnected`. -/
def handleMsgMoveWorldportAck (w : World) (cm : CharacterManager) (guid : Guid) :
    Except String (World × CharacterManager) := do
  let c ← getCharacter cm guid
  match c.teleportState with
  | .executing (.far destination) =>
    let mapId := destination.map
    let w := getOrCreateMap w mapId
    let c ← getCharacter cm guid
    let cm := setCharacter cm guid
      { c with map := mapId, position := some destination.pos, timeSyncCounter := 0 }
    let w := getOrCreateMap w mapId
    let w := mapPushCharacter w mapId guid
    let c ← getCharacter cm guid
    let cm := setCharacter cm guid { c with teleportState := TeleportationState.none }
    pure (w, cm)
  | _ => pure (w, cm)

/-- C4 scenario: character 1 on map 0, teleport state
`Executing(Far { map 1, (100, 200, 50) })`. -/
def worldportChar : WChar :=
  { mkWChar 1 0 (some { x := 0, y := 0, z := 0 }) with
    timeSyncCounter := 5,
    teleportState := .executing (.far
      { map := 1, pos := { x := 100, y := 200, z := 50 }, orientation := 0 }) }

/-- C4 scenario world: only map 0 exists and it holds character 1. -/
def worldportWorld : World :=
  { worldMaps := [(0, { MapManager.new 0 with charactersOnMap := [1] })] }

/-- Old-map membership of `g` after the worldport ack (none on error). -/
def worldportOldMapMembers (w : World) (cm : CharacterManager) (g : Guid) (oldMap : Nat) :
    Option (List Guid) :=
  match handleMsgMoveWorldportAck w cm g with
  | .ok (w2, _) => (alLookup w2.worldMaps oldMap).map MapManager.charactersOnMap
  | .error _ => none

/-- Character record after the worldport ack (none on error). -/
def worldportCharAfter (w : World) (cm : CharacterManager) (g : Guid) : Option WChar :=
  match handleMsgMoveWorldportAck w cm g with
  | .ok (_, cm2) => alLookup cm2 g
  | .error _ => none

/-- New-map add queue after the worldport ack (none on error). -/
def worldportNewMapAddQueue (w : World) (cm : CharacterManager) (g : Guid) (newMap : Nat) :
    Option (List Guid) :=
  match handleMsgMoveWorldportAck w cm g with
  | .ok (w2, _) => (alLookup w2.worldMaps newMap).map MapManager.addQueue
  | .error _ => none

/-- The character record C4's claim expects after the ack (destination map,
destination position, reset counter, idle teleport state). -/
def worldportCharExpected : WChar :=
  { worldportChar with
    map := 1
    position := some { x := 100, y := 200, z := 50 }
    timeSyncCounter := 0
    teleportState := TeleportationState.none }

/-- C4: after handling `MSG_MOVE_WORLDPORT_ACK` in state
`Executing(Far(dest))`, the character's map, position and time-sync counter
are updated, it is enqueued on the destination map, and the teleport state
returns to `None` — but the character is still a member of the OLD map's
`characters_on_map`: the handler never removes it, contradicting the
claim's "removed from its old map". -/
theorem worldport_ack_keeps_character_on_old_map_cex :
    worldportOldMapMembers worldportWorld [(1, worldportChar)] 1 0 = some [1] ∧
    worldportNewMapAddQueue worldportWorld [(1, worldportChar)] 1 1 = some [1] ∧
    worldportCharAfter worldportWorld [(1, worldportChar)] 1 = some worldportCharExpected := by
  refine ⟨by decide, by decide, by decide⟩

/-! ## Character inventory and item guids (C9)

`character/character_inventory.rs`.  The slot enumerations and the
slot-compatibility table live in the repository's
`world/constants/inventory.rs`, which is not among the provided sources;
they are modelled from the spec (section 3: an equipped-items inventory and
a 16-cell bag inventory) with the standard equipment slot numbering the
source relies on (`EQUIPMENT_SLOTS_END`, `BAG_SLOTS_END`,
`BagSlot::Item1..Item16`). -/

/-- Modelled from the spec: item inventory types relevant to the equipment
slot table (the full `InventoryType` enum is supplied by the external
protocol library). -/
inductive InventoryType where
  | head
  | chest
  | legs
  | feet
  | mainHand
  | nonEquipable
  deriving Repr, DecidableEq

/-- Modelled from the spec: `get_compatible_equipment_slots_for_inventory_type`
from the missing `world/constants/inventory.rs` — the equipment slots an
item of a given inventory type may occupy, in preference order. -/
def compatibleEquipmentSlotsForInventoryType : InventoryType → List Nat
  | .head => [0]
  | .chest => [4]
  | .legs => [6]
  | .feet => [7]
  | .mainHand => [15]
  | .nonEquipable => []

/-- `character_inventory.rs` `INVENTORY_SLOT_BAG_0 = 255`. -/
def INVENTORY_SLOT_BAG_0 : Nat := 255

/-- Modelled from the spec: last plain equipment slot. -/
def EQUIPMENT_SLOTS_END : Nat := 18

/-- Modelled from the spec: last equipped-bag slot
(`get_all_equipment` returns `BAG_SLOTS_END + 1` cells). -/
def BAG_SLOTS_END : Nat := 22

/-- Modelled from the spec: `EquipmentSlot::try_from(u8)` accepts slots
`0..=BAG_SLOTS_END`. -/
def equipmentSlotTryFrom (slot : Nat) : Option Nat :=
  if slot ≤ BAG_SLOTS_END then some slot else none

/-- Modelled from the spec: `BagSlot::try_from(u8)` accepts the backpack
slots `Item1..Item16` = `23..=38`. -/
def bagSlotTryFrom (slot : Nat) : Option Nat :=
  if 23 ≤ slot ∧ slot ≤ 38 then some slot else none

/-- An `Item`'s `UpdateItem` state, restricted to the fields
`set_item_guid` reads and rebuilds (object scale is an `f32` constant and
elided). -/
structure Item where
  objectGuid : Nat
  entry : Int
  owner : Nat
  contained : Nat
  stackCount : Nat
  durability : Nat
  maxDurability : Nat
  inventoryType : InventoryType
  deriving Repr, DecidableEq

/-- `Character::set_item_guid`: rebuild the item's update state with a new
object guid, preserving every other field. -/
def setItemGuid (item : Item) (guid : Nat) : Item :=
  { item with objectGuid := guid }

/-- The item-guid encoding used throughout `character_inventory.rs`:
`((character_id as u64) << 32) | (slot as u64)`. -/
def itemGuidEncode (characterId slot : Nat) : Nat :=
  Nat.lor (characterId <<< 32) slot

/-- The slice of `Character` that the inventory operations touch:
the character guid, the equipment map, the 16 backpack cells
(index = slot − 23), and the `gameplay_data` inventory/visible-item
fields. -/
structure CharacterInv where
  guid : Nat
  equippedItems : List (Nat × Item)
  bagItems : List (Option Item)
  inventoryFields : List (Nat × Nat)
  visibleItems : List (Nat × Int)
  deriving Repr, DecidableEq

/-- `CharacterInventory::try_insert_item`: insert at the first VACANT slot
compatible with the item's inventory type, returning the chosen slot. -/
def tryInsertItem (items : List (Nat × Item)) (item : Item) :
    Except String (List (Nat × Item) × Nat) :=
  match (compatibleEquipmentSlotsForInventoryType item.inventoryType).find?
      (fun s => (alLookup items s).isNone) with
  | some s => .ok (alInsert items s item, s)
  | none => .error "No free slots to put item"

/-- `Character::update_visible_item` (only for plain equipment slots). -/
def updateVisibleItem (ch : CharacterInv) (slot : Nat) (item : Item) : CharacterInv :=
  if slot ≤ EQUIPMENT_SLOTS_END then
    { ch with visibleItems := alInsert ch.visibleItems slot item.entry }
  else ch

/-- `Character::clear_visible_item`. -/
def clearVisibleItem (ch : CharacterInv) (slot : Nat) : CharacterInv :=
  if slot ≤ EQUIPMENT_SLOTS_END then
    { ch with visibleItems := alInsert ch.visibleItems slot 0 }
  else ch

/-- `Character::update_inventory_field`. -/
def updateInventoryField (ch : CharacterInv) (slot : Nat) (guid : Nat) : CharacterInv :=
  { ch with inventoryFields := alInsert ch.inventoryFields slot guid }

/-- `Character::set_equipment_item` (character_inventory.rs:242-284).
The database writes and the `send_item_update` wire message take `Option`
handles in the source and are invoked here with `None`. -/
def setEquipmentItem (ch : CharacterInv) (item : Option Item) (slot : Nat) :
    Except String (CharacterInv × Option Item) :=
  let previousItem := alLookup ch.equippedItems slot
  let ch1 := { ch with equippedItems := alRemove ch.equippedItems slot }
  match item with
  | some item =>
    let characterId := ch1.guid % 2 ^ 32
    let newGuid := itemGuidEncode characterId slot
    let item := setItemGuid item newGuid
    let ch2 := updateVisibleItem ch1 slot item
    let ch3 := updateInventoryField ch2 slot newGuid
    match tryInsertItem ch3.equippedItems item with
    | .ok (items, _) => .ok ({ ch3 with equippedItems := items }, previousItem)
    | .error e => .error e
  | none =>
    let ch2 := clearVisibleItem ch1 slot
    let ch3 := updateInventoryField ch2 slot 0
    .ok (ch3, previousItem)

/-- `Character::set_bag_item` (character_inventory.rs:286-324). -/
def setBagItem (ch : CharacterInv) (item : Option Item) (slot : Nat) :
    Except String (CharacterInv × Option Item) :=
  let idx := slot - 23
  let previousItem := ch.bagItems.getD idx none
  let ch1 := { ch with bagItems := ch.bagItems.set idx none }
  match item with
  | some item =>
    let characterId := ch1.guid % 2 ^ 32
    let newGuid := itemGuidEncode characterId slot
    let item := setItemGuid item newGuid
    let ch2 := updateInventoryField ch1 slot newGuid
    .ok ({ ch2 with bagItems := ch2.bagItems.set idx (some item) }, previousItem)
  | none =>
    let ch2 := updateInventoryField ch1 slot 0
    .ok ({ ch2 with bagItems := ch2.bagItems.set idx none }, previousItem)

/-- `Character::set_item` (character_inventory.rs:180-203); the two
`todo!()` arms are modelled as errors. -/
def setItem (ch : CharacterInv) (item : Option Item) (slot bag : Nat) :
    Except String (CharacterInv × Option Item) :=
  if bag ≠ INVENTORY_SLOT_BAG_0 then
    .error "todo: Bags not implemented yet"
  else
    match equipmentSlotTryFrom slot with
    | some _ => setEquipmentItem ch item slot
    | none =>
      match bagSlotTryFrom slot with
      | some _ => setBagItem ch item slot
      | none => .error "todo: Non-equipment inventory not implemented yet"

/-- The item literal built inside `Character::try_add_item_to_backpack`. -/
def backpackItem (itemId : Int) (characterId slotId : Nat) : Item :=
  { objectGuid := itemGuidEncode characterId slotId, entry := itemId,
    owner := characterId, contained := characterId, stackCount := 1,
    durability := 100, maxDurability := 100, inventoryType := .nonEquipable }

/-- The slot loop of `Character::try_add_item_to_backpack`: first free
backpack cell wins; a failing `set_item` falls through to the next slot. -/
def tryAddItemLoop (ch : CharacterInv) (itemId : Int) (characterId : Nat) :
    List Nat → Option (CharacterInv × Nat)
  | [] => none
  | slotId :: rest =>
    if (ch.bagItems.getD (slotId - 23) none).isSome then
      tryAddItemLoop ch itemId characterId rest
    else
      match setItem ch (some (backpackItem itemId characterId slotId)) slotId
          INVENTORY_SLOT_BAG_0 with
      | .ok (ch2, _) => some (ch2, slotId)
      | .error _ => tryAddItemLoop ch itemId characterId rest

/-- `Character::try_add_item_to_backpack` (character_inventory.rs:389-425),
returning the updated character and the chosen slot. -/
def tryAddItemToBackpack (ch : CharacterInv) (itemId : Int) (characterId : Nat) :
    Option (CharacterInv × Nat) :=
  tryAddItemLoop ch itemId characterId ((List.range 16).map (fun i => 23 + i))

/-- `getD` of a `set` cell within bounds. -/
theorem getD_set_self {α : Type} : ∀ (l : List α) (i : Nat) (v d : α), i < l.length →
    (l.set i v).getD i d = v
  | [], i, _, _, h => absurd h (by simp)
  | _ :: _, 0, _, _, _ => rfl
  | _ :: tl, i + 1, v, d, h => getD_set_self tl i v d (by simpa using h)

/-- Equipment cell `cell` after `set_item` (none when `set_item` errors). -/
def equippedCellAfterSetItem (ch : CharacterInv) (item : Option Item) (slot bag cell : Nat) :
    Option (Option Item) :=
  match setItem ch item slot bag with
  | .ok (ch2, _) => some (alLookup ch2.equippedItems cell)
  | .error _ => none

/-- Backpack cell `idx` after `set_item` (none when `set_item` errors). -/
def bagCellAfterSetItem (ch : CharacterInv) (item : Option Item) (slot bag idx : Nat) :
    Option (Option Item) :=
  match setItem ch item slot bag with
  | .ok (ch2, _) => some (ch2.bagItems.getD idx none)
  | .error _ => none

/-- C9 base inventory: character guid 9, everything empty. -/
def invBase : CharacterInv :=
  { guid := 9, equippedItems := [], bagItems := List.replicate 16 none,
    inventoryFields := [], visibleItems := [] }

/-- C9 counterexample item: a head-type item. -/
def headItemLit : Item :=
  { objectGuid := 0, entry := 1234, owner := 9, contained := 0, stackCount := 1,
    durability := 100, maxDurability := 100, inventoryType := .head }

/-- C9 counterexample: `set_item` of a head-type item with requested slot 7
(feet).  `set_item` does not check slot compatibility (its own comment says
so), computes the guid from the REQUESTED slot 7, and then
`try_insert_item` stores the item at the first vacant slot compatible with
its inventory type — cell 0.  The item placed into equipment cell 0 thus
carries `object_guid = (9 << 32) | 7`, not `(9 << 32) | 0`, refuting the
claimed invariant for the cell that actually holds the item. -/
theorem set_item_wrong_cell_guid_cex :
    equippedCellAfterSetItem invBase (some headItemLit) 7 255 0 =
      some (some (setItemGuid headItemLit (itemGuidEncode 9 7))) ∧
    equippedCellAfterSetItem invBase (some headItemLit) 7 255 7 = some none ∧
    itemGuidEncode 9 7 ≠ itemGuidEncode 9 0 := by
  refine ⟨by decide, by decide, by decide⟩

/-- C9 amended, backpack part: placing an item into a backpack cell stores
it at the requested cell, carrying the encoded guid of that cell. -/
theorem set_item_bag_cell_invariant (ch : CharacterInv) (item : Item) (slot : Nat)
    (h1 : 23 ≤ slot) (h2 : slot ≤ 38) (hlen : slot - 23 < ch.bagItems.length) :
    bagCellAfterSetItem ch (some item) slot INVENTORY_SLOT_BAG_0 (slot - 23) =
      some (some (setItemGuid item (itemGuidEncode (ch.guid % 2 ^ 32) slot))) := by
  have hneq : ¬ slot ≤ BAG_SLOTS_END := by simp only [BAG_SLOTS_END]; omega
  simp only [bagCellAfterSetItem, setItem, INVENTORY_SLOT_BAG_0, equipmentSlotTryFrom,
    bagSlotTryFrom, hneq, if_false,
    if_neg (by omega : ¬ (255 : Nat) ≠ 255), if_pos (And.intro h1 h2), setBagItem,
    updateInventoryField]
  rw [List.set_set, getD_set_self]
  simpa using hlen

/-- C9 amended, equipment part: when the requested equipment slot is the
first vacant slot compatible with the item's inventory type (after the
requested slot has been vacated), the item lands in the requested cell
carrying that cell's encoded guid. -/
theorem set_item_equipment_cell_invariant (ch : CharacterInv) (item : Item) (slot : Nat)
    (hs : slot ≤ 22)
    (hfind : (compatibleEquipmentSlotsForInventoryType item.inventoryType).find?
      (fun s => (alLookup (alRemove ch.equippedItems slot) s).isNone) = some slot) :
    equippedCellAfterSetItem ch (some item) slot 255 slot =
      some (some (setItemGuid item (itemGuidEncode (ch.guid % 2 ^ 32) slot))) := by
  have hle : slot ≤ BAG_SLOTS_END := by simp only [BAG_SLOTS_END]; omega
  simp only [equippedCellAfterSetItem, setItem, INVENTORY_SLOT_BAG_0, equipmentSlotTryFrom,
    if_neg (by omega : ¬ (255 : Nat) ≠ 255), if_pos hle, setEquipmentItem, tryInsertItem,
    updateVisibleItem, updateInventoryField, clearVisibleItem]
  by_cases hviz : slot ≤ EQUIPMENT_SLOTS_END <;>
    simp only [hviz, if_true, if_false, setItemGuid, hfind, alLookup_alInsert_self]

/-- Any successful run of the backpack-slot loop stores the new item at the
chosen cell with that cell's encoded guid. -/
theorem tryAddItemLoop_cell (ch : CharacterInv) (itemId : Int) (cid : Nat)
    (hlen : ch.bagItems.length = 16) :
    ∀ (l : List Nat), (∀ s ∈ l, 23 ≤ s ∧ s ≤ 38) →
    ∀ ch2 s, tryAddItemLoop ch itemId cid l = some (ch2, s) →
      ch2.bagItems.getD (s - 23) none =
        some (setItemGuid (backpackItem itemId cid s) (itemGuidEncode (ch.guid % 2 ^ 32) s)) := by
  intro l
  induction l with
  | nil => intro _ ch2 s h; simp [tryAddItemLoop] at h
  | cons hd tl ih =>
    intro hmem ch2 s h
    cases hocc : (ch.bagItems.getD (hd - 23) none).isSome with
    | true =>
      simp only [tryAddItemLoop, hocc, if_true] at h
      exact ih (fun s2 hs => hmem s2 (List.mem_cons_of_mem _ hs)) ch2 s h
    | false =>
      have hb := hmem hd (List.mem_cons_self _ _)
      have hcell := set_item_bag_cell_invariant ch (backpackItem itemId cid hd) hd hb.1 hb.2
        (by omega)
      simp only [tryAddItemLoop, hocc, Bool.false_eq_true, if_false] at h
      cases hset : setItem ch (some (backpackItem itemId cid hd)) hd INVENTORY_SLOT_BAG_0 with
      | error e =>
        rw [bagCellAfterSetItem, hset] at hcell
        simp at hcell
      | ok p =>
        rw [hset] at h
        simp only [Option.some.injEq, Prod.mk.injEq] at h
        rw [bagCellAfterSetItem, hset] at hcell
        simp only [Option.some.injEq] at hcell
        rw [← h.1, ← h.2]
        exact hcell

/-- C9 amended: the guid of every item placed via `set_item` encodes the
REQUESTED slot as `(character_id << 32) | slot_id`.  For backpack cells the
item is stored at the requested cell, so the claimed invariant holds there
(and for items created by `try_add_item_to_backpack`); for equipment cells
it holds whenever the requested slot is the first vacant slot compatible
with the item's inventory type (the `set_item_wrong_cell_guid_cex`
counterexample shows that otherwise the storing cell can differ from the
slot encoded in the guid, since `set_item` does not check slot
compatibility). -/
theorem set_item_object_guid_invariant (ch : CharacterInv) (item : Item) (slot : Nat)
    (itemId : Int) (cid : Nat) :
    (23 ≤ slot → slot ≤ 38 → slot - 23 < ch.bagItems.length →
      bagCellAfterSetItem ch (some item) slot INVENTORY_SLOT_BAG_0 (slot - 23) =
        some (some (setItemGuid item (itemGuidEncode (ch.guid % 2 ^ 32) slot))))
    ∧ (slot ≤ 22 →
      (compatibleEquipmentSlotsForInventoryType item.inventoryType).find?
        (fun s => (alLookup (alRemove ch.equippedItems slot) s).isNone) = some slot →
      equippedCellAfterSetItem ch (some item) slot 255 slot =
        some (some (setItemGuid item (itemGuidEncode (ch.guid % 2 ^ 32) slot))))
    ∧ (ch.bagItems.length = 16 →
      ∀ ch2 s, tryAddItemToBackpack ch itemId cid = some (ch2, s) →
      ch2.bagItems.getD (s - 23) none =
        some (setItemGuid (backpackItem itemId cid s) (itemGuidEncode (ch.guid % 2 ^ 32) s))) := by
  refine ⟨fun h1 h2 h3 => set_item_bag_cell_invariant ch item slot h1 h2 h3,
    fun hs hfind => set_item_equipment_cell_invariant ch item slot hs hfind,
    fun hlen ch2 s h => tryAddItemLoop_cell ch itemId cid hlen _ ?_ ch2 s h⟩
  intro s2 hs2
  simp only [List.mem_map, List.mem_range] at hs2
  omega

/-- C9 scenario item for the witness: a feet-type item. -/
def feetItemLit : Item :=
  { headItemLit with inventoryType := .feet }

/-- The inventory produced by `try_add_item_to_backpack` on the empty
character 9 with item id 55. -/
def backpackAddExpected : CharacterInv :=
  { guid := 9, equippedItems := [],
    bagItems := (List.replicate 16 none).set 0 (some (backpackItem 55 9 23)),
    inventoryFields := [(23, itemGuidEncode 9 23)], visibleItems := [] }

/-- Witness for C9's amended theorem at concrete inputs: a feet item into
backpack cell 23, a feet item into its own equipment slot 7, and one
`try_add_item_to_backpack` run. -/
theorem set_item_object_guid_invariant_witness :
    (bagCellAfterSetItem invBase (some feetItemLit) 23 INVENTORY_SLOT_BAG_0 0 =
      some (some (setItemGuid feetItemLit (itemGuidEncode 9 23))))
    ∧ (equippedCellAfterSetItem invBase (some feetItemLit) 7 255 7 =
      some (some (setItemGuid feetItemLit (itemGuidEncode 9 7))))
    ∧ (backpackAddExpected.bagItems.getD 0 none =
      some (setItemGuid (backpackItem 55 9 23) (itemGuidEncode 9 23))) :=
  ⟨(set_item_object_guid_invariant invBase feetItemLit 23 55 9).1
      (by decide) (by decide) (by decide),
   (set_item_object_guid_invariant invBase feetItemLit 7 55 9).2.1
      (by decide) (by decide),
   (set_item_object_guid_invariant invBase feetItemLit 7 55 9).2.2
      (by decide) backpackAddExpected 23 (by decide)⟩

/-! ## Realm login handshake (C10)

`connection/mod.rs` `Connection` and
`handlers/login_handler.rs` `handle_cmsg_auth_session`. -/

/-- The realm connection state the handshake reads and writes:
`ConnectionData::account_id` plus the optional encryption halves. -/
structure WorldConnection where
  accountId : Option Nat
  hasEncryption : Bool
  hasDecryption : Bool
  deriving Repr, DecidableEq

/-- Wire messages `handle_cmsg_auth_session` can write to the stream. -/
inductive RealmWireMsg where
  | authResponseOk
  | authResponseReject
  | addonInfo
  | clientcacheVersion
  | tutorialFlags
  deriving Repr, DecidableEq

/-- Events the connection can send to the realm client manager
(`ClientEvent` in `connection/events.rs`, the cases this handler reaches;
`Connection::disconnect` emits `Disconnected`). -/
inductive RealmManagerEvent where
  | connected (accountId : Nat)
  | disconnected
  deriving Repr, DecidableEq

/-- Outcome of `handle_cmsg_auth_session`: the function's `Result`, the
updated connection, the wire messages written, and the events sent to the
client manager.  `panic` models the `assert_eq!` on the decoded session-key
length. -/
inductive AuthSessionOutcome where
  | ok (conn : WorldConnection) (wire : List RealmWireMsg)
      (managerEvents : List RealmManagerEvent) (accountId : Nat)
  | err (conn : WorldConnection) (wire : List RealmWireMsg)
      (managerEvents : List RealmManagerEvent)
  | panic (wire : List RealmWireMsg) (managerEvents : List RealmManagerEvent)
  deriving Repr, DecidableEq

/-- `Connection::is_authenticated`. -/
def isAuthenticated (conn : WorldConnection) : Bool :=
  conn.accountId.isSome

/-- `handlers/login_handler.rs` `handle_cmsg_auth_session` (lines 20-122).

External results are parameters: `dbAccount` is the account row looked up
by username, `sessionKeyLen` the length of the hex-decoded stored session
key (`assert_eq!(.., 40)` panics otherwise), `cryptoOk` whether
`proof_seed.into_header_crypto` accepted the client proof, and
`addonParseOk` whether the addon blob parsed (a parse failure propagates as
an error after `AuthOk` was already sent). -/
def handleCmsgAuthSession (conn : WorldConnection) (dbAccount : Option Account)
    (sessionKeyLen : Nat) (cryptoOk addonParseOk : Bool) : AuthSessionOutcome :=
  if isAuthenticated conn then
    -- `connection.disconnect()` then `bail!`: no crypto is installed, no
    -- session key derived, no session created
    .err conn [] [.disconnected]
  else
    match dbAccount with
    | none => .err conn [] []
    | some acc =>
      if sessionKeyLen ≠ 40 then
        .panic [] []
      else if ¬cryptoOk then
        .err conn [.authResponseReject] []
      else
        let conn := { conn with hasEncryption := true, hasDecryption := true }
        if ¬addonParseOk then
          .err conn [.authResponseOk] []
        else
          .ok conn [.authResponseOk, .addonInfo, .clientcacheVersion, .tutorialFlags] [] acc.id

/-- C10: a connection that already completed authentication
(`account_id` set) receiving a second `CMSG_AUTH_SESSION` is disconnected
(a `Disconnected` event goes to the manager) and the handler returns an
error; the connection state — in particular the crypto halves and the
account id — is unchanged, nothing is written to the wire, and no
`Connected` session-creation event is produced, regardless of the database
row or the proof check result. -/
theorem duplicate_auth_session_rejected (conn : WorldConnection) (id : Nat)
    (dbAccount : Option Account) (sessionKeyLen : Nat) (cryptoOk addonParseOk : Bool)
    (h : conn.accountId = some id) :
    handleCmsgAuthSession conn dbAccount sessionKeyLen cryptoOk addonParseOk =
      .err conn [] [.disconnected] := by
  simp [handleCmsgAuthSession, isAuthenticated, h]

/-- Witness for C10 at a concrete input: an authenticated connection
(account 42) with intact crypto, a present database row and a passing
proof check still gets disconnected with an error. -/
theorem duplicate_auth_session_rejected_witness :
    handleCmsgAuthSession { accountId := some 42, hasEncryption := true, hasDecryption := true }
      (some { id := 7, username := "bob", v := "aa", s := "bb", sessionkey := "cc", banned := 0 })
      40 true true =
      .err { accountId := some 42, hasEncryption := true, hasDecryption := true }
        [] [.disconnected] :=
  duplicate_auth_session_rejected
    { accountId := some 42, hasEncryption := true, hasDecryption := true } 42
    (some { id := 7, username := "bob", v := "aa", s := "bb", sessionkey := "cc", banned := 0 })
    40 true true rfl

end WrathRs
